import Mathlib

/-!
# Folding Atomata: `Viewer` (src/Viewer/Viewer.cpp)

A shallow embedding of the parts of `Viewer.cpp` that decide how trajectories
are obtained (`Viewer::getTrajectories`, `Viewer::addSlotViewers`), how the
skybox cube is wound (`Viewer::getSkyboxMesh`), when a frame is drawn
(`Viewer::render`) and what the frame-rate reporter (`Viewer::reportFPS`)
writes meanwhile.

Conventions of the embedding.

* A C++ call that may raise returns `Except Thrown α`; `try`/`catch` is a
  `match` on that value.
* The collaborators whose code lives outside `Viewer.cpp` (`ClientSocket`,
  `FAHClientIO`, `TrajectoryParser`, `Options`, the file system, `Scene`,
  `User`) are parameters: a record of the outcomes their calls have.
* Observable side effects (lines written to `std::cerr`, files opened, OpenGL
  calls) are collected in an explicit log returned next to the result.
* `frameCount_` is a machine integer: an `Int` kept within the least and
  greatest value of its declared type, with `++` wrapping at the greatest.
* The thread `reportFPS` detaches writes the two counters that `render` also
  writes. Each read and each write of a counter is one step; a call of
  `render` is given the reporter's writes that land between its own steps.
-/

namespace FoldingAtomata

/-! ## Exceptions and effects -/

/-- An exception in flight. `catch (SocketException&)` matches exactly the
first constructor; `std::runtime_error` is what `getTrajectories` itself
throws; `other` stands for every exception type that is neither (named by
its type and message). -/
inductive Thrown where
  | SocketException (description : String)
  | runtime_error (what : String)
  | other (typeName : String) (what : String)
  deriving DecidableEq, Repr

deriving instance DecidableEq for Except

/-- Does the handler `catch (SocketException&)` match this exception? -/
def Thrown.isSocketException : Thrown → Bool
  | .SocketException _ => true
  | _ => false

/-- Effects of `getTrajectories` visible outside the process. -/
inductive Event where
  | cerr (line : String)
  | ifstreamOpen (filename : String)
  deriving DecidableEq, Repr

/-! ## Collaborators of `getTrajectories` -/

/-- The object `std::make_shared<ClientSocket>(host, port)` yields when the
constructor does not raise. -/
structure ClientSocket where
  host : String
  port : Int
  deriving DecidableEq, Repr

/-- The object `FAHClientIO io(socket)` declares. -/
structure FAHClientIO where
  socket : ClientSocket
  deriving DecidableEq, Repr

/-- Outcomes of the calls `getTrajectories` makes into code outside
`Viewer.cpp`, for one run. `Trajectory` is what a `TrajectoryPtr` points to. -/
structure Collaborators (Trajectory : Type) where
  /-- `Options::getInstance().getHost()` -/
  getHost : String
  /-- `Options::getInstance().getPort()` -/
  getPort : Int
  /-- constructor of `ClientSocket` (connects) -/
  makeClientSocket : String → Int → Except Thrown ClientSocket
  /-- constructor of `FAHClientIO` -/
  makeClient : ClientSocket → Except Thrown FAHClientIO
  /-- `FAHClientIO::getTrajectories` -/
  clientGetTrajectories : FAHClientIO → Except Thrown (List Trajectory)
  /-- `std::ifstream fin(name, in | binary)` and, when it opens, lines 158-163
  that read the whole file: `none` when `fin.is_open()` is false; otherwise
  the bytes read, or the exception `proteinStr.resize` raises when `tellg`
  reports a failure and the cast makes that an impossible size. -/
  ifstream : String → Option (Except Thrown String)
  /-- `TrajectoryParser(text, flag).parse()` -/
  parse : String → Bool → Except Thrown Trajectory

/-! ## `Viewer::getTrajectories` (lines 127-170) -/

/-- Line 153. -/
def FILENAME : String := "/usr/share/FoldingAtomata/demoProtein"

/-- Lines 142-143. -/
def notEnoughSlots : String := "Not enough slots to work with. Using demo protein."

/-- Lines 147-148. -/
def errorConnection : String :=
  "Error connection to FAHClient (SocketException). Using demo protein."

/-- Line 156. -/
def unableToDemo : Thrown := .runtime_error "Unable to demo protein!"

/-- Body of the `try` block, lines 133-143: the value assigned to
`trajectories`, or the exception that leaves the block. -/
def tryBlock {Trajectory : Type} (c : Collaborators Trajectory) :
    Except Thrown (List Trajectory) × List Event :=
  match c.makeClientSocket c.getHost c.getPort with
  | .error e => (.error e, [])
  | .ok socket =>
    match c.makeClient socket with
    | .error e => (.error e, [])
    | .ok io =>
      match c.clientGetTrajectories io with
      | .error e => (.error e, [])
      | .ok trajectories =>
        if trajectories.isEmpty then (.ok trajectories, [.cerr notEnoughSlots])
        else (.ok trajectories, [])

/-- Lines 129-149, the `try` with its single handler `catch (SocketException&)`:
`.ok ts` is the value of `trajectories` when control reaches line 151 (the
declaration on line 129 leaves it empty when the assignment on line 139 was
not reached); `.error e` is an exception the handler does not match, which
leaves `getTrajectories`. -/
def tryCatch {Trajectory : Type} (c : Collaborators Trajectory) :
    Except Thrown (List Trajectory) × List Event :=
  match tryBlock c with
  | (.ok trajectories, log) => (.ok trajectories, log)
  | (.error (.SocketException _), log) => (.ok [], log ++ [.cerr errorConnection])
  | (.error e, log) => (.error e, log)

/-- Lines 151-169, run with the value `trajectories` has on line 151. -/
def demoProtein {Trajectory : Type} (c : Collaborators Trajectory)
    (trajectories : List Trajectory) (log : List Event) :
    Except Thrown (List Trajectory) × List Event :=
  if trajectories.isEmpty then
    match c.ifstream FILENAME with
    | none => (.error unableToDemo, log ++ [.ifstreamOpen FILENAME])
    | some (.error e) => (.error e, log ++ [.ifstreamOpen FILENAME])
    | some (.ok proteinStr) =>
      match c.parse proteinStr false with
      | .error e => (.error e, log ++ [.ifstreamOpen FILENAME])
      | .ok trajectory => (.ok (trajectories ++ [trajectory]), log ++ [.ifstreamOpen FILENAME])
  else (.ok trajectories, log)

/-- `Viewer::getTrajectories`: the returned vector or the exception that
escapes, and the effects in order. -/
def getTrajectories {Trajectory : Type} (c : Collaborators Trajectory) :
    Except Thrown (List Trajectory) × List Event :=
  match tryCatch c with
  | (.error e, log) => (.error e, log)
  | (.ok trajectories, log) => demoProtein c trajectories log

/-! ## `Viewer` state, `Viewer::addSlotViewers` (lines 117-123) -/

/-- The scene behind `scene_`. Of `Scene` the viewer uses one thing here:
the number `scene_->render()` returns (the time the draw took, in the
numeric type `Time` of `timeSpentRendering_`). -/
structure Scene (Time : Type) where
  render : Time

/-- The user behind `user_`; `isMoving` is the answer of `user_->isMoving()`. -/
structure User where
  isMoving : Bool
  deriving DecidableEq, Repr

/-- What `std::make_shared<SlotViewer>(trajectory, scene)` is given. -/
structure SlotViewer (Trajectory Time : Type) where
  trajectory : Trajectory
  scene : Scene Time

/-- A fixed-width integer type of C++, by its least and its greatest value
(`std::numeric_limits`): every such type contains 0. -/
structure CountType where
  min : Int
  max : Int
  min_le_zero : min ≤ 0
  zero_le_max : 0 ≤ max

namespace CountType

/-- The type `int` of the platforms the program is built for: 32 bits. -/
def int32 : CountType := ⟨-2147483648, 2147483647, by decide, by decide⟩

/-- `n++` in the type `T`: one more below the greatest value. At the greatest
value there is no successor in the type: an unsigned type wraps to its least
value by definition, and the overflow of a signed one lands there as well on
two's-complement hardware. -/
def increment (T : CountType) (n : Int) : { m : Int // T.min ≤ m ∧ m ≤ T.max } :=
  if h : T.min ≤ n ∧ n < T.max then ⟨n + 1, by omega⟩
  else ⟨T.min, le_refl _, le_trans T.min_le_zero T.zero_le_max⟩

end CountType

/-- Data members of `Viewer` that `Viewer.cpp` reads or writes. The header
that declares their types is not part of the sources at hand, so the element
type of a trajectory, the numeric type `Time` of `timeSpentRendering_` and the
integer type `countType` of `frameCount_` are parameters. `frameCount_` holds
a value of `countType`: an integer within its bounds. -/
structure Viewer (Trajectory Time : Type) where
  scene_ : Scene Time
  user_ : User
  timeSpentRendering_ : Time
  countType : CountType
  frameCount_ : Int
  frameCount_inRange : countType.min ≤ frameCount_ ∧ frameCount_ ≤ countType.max
  needsRerendering_ : Bool
  slotViewers_ : List (SlotViewer Trajectory Time)

/-- How a call ends: it returns, it leaves by an exception, or it indexes a
`std::vector` outside its bounds (`operator[]` does not check). -/
inductive Outcome (α : Type) where
  | returned (value : α)
  | threw (e : Thrown)
  | outOfBounds

/-- `Viewer::addSlotViewers`. -/
def addSlotViewers {Trajectory Time : Type} (c : Collaborators Trajectory)
    (v : Viewer Trajectory Time) : Outcome (Viewer Trajectory Time) × List Event :=
  match getTrajectories c with
  | (.error e, log) => (.threw e, log)
  | (.ok trajectories, log) =>
    match trajectories[0]? with
    | none => (.outOfBounds, log)
    | some trajectory0 =>
      let slot0Viewer : SlotViewer Trajectory Time := ⟨trajectory0, v.scene_⟩
      (.returned { v with slotViewers_ := v.slotViewers_ ++ [slot0Viewer] }, log)

/-! ## `Viewer::reportFPS` (lines 66-84) -/

/-- The writes of the detached thread `fpsReporter`, once a second: line 78,
`frameCount_ = 0`, and line 79, `timeSpentRendering_ = 0`. (What it reads
on lines 74-77 goes to `std::cout` and changes nothing.) -/
inductive ReporterWrite where
  | frameCount
  | timeSpentRendering
  deriving DecidableEq, Repr

/-- One write of the reporter, on the members of the viewer. -/
def ReporterWrite.apply {Trajectory Time : Type} [Zero Time] :
    ReporterWrite → Viewer Trajectory Time → Viewer Trajectory Time
  | .frameCount, v =>
    { v with
      frameCount_ := 0
      frameCount_inRange := ⟨v.countType.min_le_zero, v.countType.zero_le_max⟩ }
  | .timeSpentRendering, v => { v with timeSpentRendering_ := 0 }

/-- Writes of the reporter, one after the other. -/
def reporterWrites {Trajectory Time : Type} [Zero Time] (ws : List ReporterWrite)
    (v : Viewer Trajectory Time) : Viewer Trajectory Time :=
  ws.foldl (fun v w => w.apply v) v

/-- One turn of the reporter's loop: line 78, then line 79. -/
def reporterRound : List ReporterWrite := [.frameCount, .timeSpentRendering]

/-! ## `Viewer::render` (lines 279-291) -/

/-- Calls `render` makes after the early return. -/
inductive GLCall where
  | glClear
  | sceneRender
  | glutSwapBuffers
  deriving DecidableEq, Repr

/-- The reporter's writes that land while one call of `render` runs, by the
place they take among the steps of `render` on the two counters: before line
287 reads `timeSpentRendering_`, between that read and the write of line 287,
between that write and the read of `frameCount_` on line 288, between that
read and the write of line 288, and after it until `render` returns. -/
structure Interleaving where
  beforeTime : List ReporterWrite
  withinTime : List ReporterWrite
  beforeCount : List ReporterWrite
  withinCount : List ReporterWrite
  afterCount : List ReporterWrite
  deriving DecidableEq, Repr

/-- The reporter writes nothing while `render` runs. -/
def Interleaving.quiet : Interleaving := ⟨[], [], [], [], []⟩

/-- All the reporter's writes during the call, in order. -/
def Interleaving.all (i : Interleaving) : List ReporterWrite :=
  i.beforeTime ++ i.withinTime ++ i.beforeCount ++ i.withinCount ++ i.afterCount

/-- `Viewer::render`, run from state `v` while the reporter's writes `i`
land: the state of the viewer when the call returns and the calls made.
Line 287 is a read of `timeSpentRendering_` and a write of the sum; line 288
is a read of `frameCount_` and a write of its successor in `countType`. On
the early return of line 282 `render` touches neither counter. -/
def render {Trajectory Time : Type} [Add Time] [Zero Time]
    (i : Interleaving) (v : Viewer Trajectory Time) :
    Viewer Trajectory Time × List GLCall :=
  if !v.needsRerendering_ && !v.user_.isMoving then (reporterWrites i.all v, [])
  else
    let v1 := { v with needsRerendering_ := false }
    let v2 := reporterWrites i.beforeTime v1
    let time := v2.timeSpentRendering_
    let v3 := reporterWrites i.withinTime v2
    let v4 := { v3 with timeSpentRendering_ := time + v3.scene_.render }
    let v5 := reporterWrites i.beforeCount v4
    let count := v5.frameCount_
    let v6 := reporterWrites i.withinCount v5
    let next := v6.countType.increment count
    let v7 := { v6 with frameCount_ := next.val, frameCount_inRange := next.property }
    (reporterWrites i.afterCount v7, [.glClear, .sceneRender, .glutSwapBuffers])

/-! ## `Viewer::getSkyboxMesh` (lines 174-240) -/

/-- A `glm::vec3` whose coordinates are integers (every coordinate of the
skybox is `1.0` or `-1.0`). -/
structure Vec3 where
  x : Int
  y : Int
  z : Int
  deriving DecidableEq, Repr

namespace Vec3

def add (u v : Vec3) : Vec3 := ⟨u.x + v.x, u.y + v.y, u.z + v.z⟩

def sub (u v : Vec3) : Vec3 := ⟨u.x - v.x, u.y - v.y, u.z - v.z⟩

def cross (u v : Vec3) : Vec3 :=
  ⟨u.y * v.z - u.z * v.y, u.z * v.x - u.x * v.z, u.x * v.y - u.y * v.x⟩

def dot (u v : Vec3) : Int := u.x * v.x + u.y * v.y + u.z * v.z

end Vec3

/-- Lines 181-212. -/
def VERTICES : List Vec3 := [
  -- front
  ⟨-1, -1, 1⟩, ⟨1, -1, 1⟩, ⟨1, 1, 1⟩, ⟨-1, 1, 1⟩,
  -- top
  ⟨-1, 1, 1⟩, ⟨1, 1, 1⟩, ⟨1, 1, -1⟩, ⟨-1, 1, -1⟩,
  -- back
  ⟨1, -1, -1⟩, ⟨-1, -1, -1⟩, ⟨-1, 1, -1⟩, ⟨1, 1, -1⟩,
  -- bottom
  ⟨-1, -1, -1⟩, ⟨1, -1, -1⟩, ⟨1, -1, 1⟩, ⟨-1, -1, 1⟩,
  -- left
  ⟨-1, -1, -1⟩, ⟨-1, -1, 1⟩, ⟨-1, 1, 1⟩, ⟨-1, 1, -1⟩,
  -- right
  ⟨1, -1, 1⟩, ⟨1, -1, -1⟩, ⟨1, 1, -1⟩, ⟨1, 1, 1⟩]

/-- Lines 215-234. -/
def INDICES : List Nat := [
  -- front
  2, 1, 0,
  0, 3, 2,
  -- top
  6, 5, 4,
  4, 7, 6,
  -- back
  10, 9, 8,
  8, 11, 10,
  -- bottom
  14, 13, 12,
  12, 15, 14,
  -- left
  18, 17, 16,
  16, 19, 18,
  -- right
  22, 21, 20,
  20, 23, 22]

/-- The index triple of the `k`-th triangle under `GL_TRIANGLES`: entries
`3k`, `3k+1`, `3k+2` of the index buffer. -/
def triangle (k : Nat) : Nat × Nat × Nat :=
  (INDICES.getD (3 * k) 0, INDICES.getD (3 * k + 1) 0, INDICES.getD (3 * k + 2) 0)

/-- The vertex an index selects. -/
def vertex (i : Nat) : Vec3 := VERTICES.getD i ⟨0, 0, 0⟩

/-- Counter-clockwise normal of the triangle `(a, b, c)`. -/
def ccwNormal (t : Nat × Nat × Nat) : Vec3 :=
  ((vertex t.2.1).sub (vertex t.1)).cross ((vertex t.2.2).sub (vertex t.1))

/-- Sum of the three vertices of the triangle (three times its centroid,
seen from the centre of the cube at the origin). -/
def vertexSum (t : Nat × Nat × Nat) : Vec3 :=
  ((vertex t.1).add (vertex t.2.1)).add (vertex t.2.2)

/-! ## Concrete runs -/

/-- A run in which every remote step succeeds and yields `remote`, and the
demo file, when `demo` is `some text`, opens and reads as `text`. -/
def scripted (remote : Except Thrown (List Nat)) (demo : Option String)
    (parse : String → Except Thrown Nat) : Collaborators Nat where
  getHost := "127.0.0.1"
  getPort := 36330
  makeClientSocket := fun h p => .ok ⟨h, p⟩
  makeClient := fun s => .ok ⟨s⟩
  clientGetTrajectories := fun _ => remote
  ifstream := fun name => if name = FILENAME then demo.map .ok else none
  parse := fun text _ => parse text

/-- A parser for the concrete runs: empty text is rejected with a parser
error, any other text is a trajectory (named by its length). -/
def parseNat (text : String) : Except Thrown Nat :=
  match text.data with
  | [] => .error (.other "ParseError" "unexpected end of input")
  | _ :: _ => .ok text.length

/-- A run whose connection attempt raises `SocketException`. -/
def refused (demo : Option String) : Collaborators Nat :=
  { scripted (.ok []) demo parseNat with
    makeClientSocket := fun _ _ => .error (.SocketException "connection refused") }

/-- A run in which the payload the client receives is malformed and its
decoder raises a syntax error; the demo file is present and parses. -/
def malformed : Collaborators Nat :=
  scripted (.error (.other "SyntaxError" "expected a value at offset 22")) (some "abc") parseNat

/-- A viewer before `addModels`, with times counted in whole milliseconds. -/
def freshViewer (sceneTime : Int) (moving : Bool) : Viewer Nat Int where
  scene_ := ⟨sceneTime⟩
  user_ := ⟨moving⟩
  timeSpentRendering_ := 0
  countType := .int32
  frameCount_ := 0
  frameCount_inRange := by decide
  needsRerendering_ := true
  slotViewers_ := []

/-- A viewer in the middle of a second: `count` frames drawn, `time` ms spent
on them, with a redraw pending or not. -/
def busyViewer (count : Int) (h : CountType.int32.min ≤ count ∧ count ≤ CountType.int32.max)
    (time : Int) (pending : Bool) : Viewer Nat Int where
  scene_ := ⟨5⟩
  user_ := ⟨false⟩
  timeSpentRendering_ := time
  countType := .int32
  frameCount_ := count
  frameCount_inRange := h
  needsRerendering_ := pending
  slotViewers_ := []

/-- A redraw is pending and `frameCount_` holds the greatest `int`. -/
def atGreatest : Viewer Nat Int := busyViewer 2147483647 (by decide) 40 true

/-- Seven frames counted and 40 ms spent so far in this second. -/
def midSecond (pending : Bool) : Viewer Nat Int := busyViewer 7 (by decide) 40 pending

/-- The reporter's turn comes right after `render` is entered. -/
def reporterFirst : Interleaving := { Interleaving.quiet with beforeTime := reporterRound }

/-! ## Lemmas on the control flow of `getTrajectories` -/

/-- An exception leaves the `try` block before anything is written to `std::cerr`. -/
theorem tryBlock_error_log {Trajectory : Type} (c : Collaborators Trajectory) (e : Thrown)
    (h : (tryBlock c).1 = .error e) : tryBlock c = (.error e, []) := by
  unfold tryBlock at h ⊢
  split
  · simp_all
  · split
    · simp_all
    · split
      · simp_all
      · split <;> simp_all

/-- The `try` block yields a `SocketException`: the handler runs and line 151
sees the empty vector of line 129. -/
theorem tryCatch_of_socketException {Trajectory : Type} (c : Collaborators Trajectory)
    (d : String) (h : (tryBlock c).1 = .error (.SocketException d)) :
    tryCatch c = (.ok [], [.cerr errorConnection]) := by
  have h1 := tryBlock_error_log c _ h
  simp [tryCatch, h1]

/-- The `try` block yields an exception the handler does not match: it leaves
the function. -/
theorem tryCatch_of_other {Trajectory : Type} (c : Collaborators Trajectory)
    (e : Thrown) (hne : e.isSocketException = false) (h : (tryBlock c).1 = .error e) :
    tryCatch c = (.error e, []) := by
  have h1 := tryBlock_error_log c _ h
  cases e with
  | SocketException d => simp [Thrown.isSocketException] at hne
  | runtime_error w => simp [tryCatch, h1]
  | other n w => simp [tryCatch, h1]

/-- The remote steps up to and including `io.getTrajectories()` all succeed. -/
theorem tryBlock_of_remote {Trajectory : Type} (c : Collaborators Trajectory)
    (socket : ClientSocket) (io : FAHClientIO) (remote : List Trajectory)
    (hsocket : c.makeClientSocket c.getHost c.getPort = .ok socket)
    (hio : c.makeClient socket = .ok io)
    (hremote : c.clientGetTrajectories io = .ok remote) :
    tryBlock c =
      (.ok remote, if remote.isEmpty then [.cerr notEnoughSlots] else []) := by
  unfold tryBlock
  simp only [hsocket, hio, hremote]
  split <;> rfl

/-- What the handler lets through is what the `try` block raised, and the
handler did not match it. -/
theorem tryCatch_error {Trajectory : Type} (c : Collaborators Trajectory) (e : Thrown)
    (h : (tryCatch c).1 = .error e) :
    (tryBlock c).1 = .error e ∧ e.isSocketException = false := by
  unfold tryCatch at h
  split at h
  · simp at h
  · simp at h
  · next e' log hns hb =>
    simp at h
    subst h
    refine ⟨by rw [hb], ?_⟩
    cases e' with
    | SocketException d => exact absurd rfl (hns d)
    | runtime_error w => rfl
    | other n w => rfl

/-- Control reaches line 151: the rest of the function is lines 151-169. -/
theorem getTrajectories_of_tryCatch_ok {Trajectory : Type} (c : Collaborators Trajectory)
    (ts : List Trajectory) (h : (tryCatch c).1 = .ok ts) :
    getTrajectories c = demoProtein c ts (tryCatch c).2 := by
  unfold getTrajectories
  split
  · simp_all
  · simp_all

/-- Control does not reach line 151: the exception is the result. -/
theorem getTrajectories_of_tryCatch_error {Trajectory : Type} (c : Collaborators Trajectory)
    (e : Thrown) (h : (tryCatch c).1 = .error e) :
    getTrajectories c = (.error e, (tryCatch c).2) := by
  unfold getTrajectories
  split
  · simp_all
  · simp_all

/-- Lines 151-169 never hand back an empty vector. -/
theorem demoProtein_ok_ne_nil {Trajectory : Type} (c : Collaborators Trajectory)
    (ts0 ts : List Trajectory) (log : List Event)
    (h : (demoProtein c ts0 log).1 = .ok ts) : ts ≠ [] := by
  unfold demoProtein at h
  split at h
  · split at h
    · simp at h
    · simp at h
    · split at h
      · simp at h
      · simp at h
        subst h
        simp
  · next hne =>
    simp at h
    subst h
    intro hnil
    subst hnil
    simp at hne

/-- A normal return of `getTrajectories` carries a non-empty vector. -/
theorem getTrajectories_ok_ne_nil {Trajectory : Type} (c : Collaborators Trajectory)
    (ts : List Trajectory) (h : (getTrajectories c).1 = .ok ts) : ts ≠ [] := by
  cases hc : (tryCatch c).1 with
  | error e =>
    rw [getTrajectories_of_tryCatch_error c e hc] at h
    simp at h
  | ok ts0 =>
    rw [getTrajectories_of_tryCatch_ok c ts0 hc] at h
    exact demoProtein_ok_ne_nil c ts0 ts _ h

/-! ## Lemmas on the reporter's writes -/

/-- The reporter does not write `needsRerendering_`. -/
theorem reporterWrites_needsRerendering {Trajectory Time : Type} [Zero Time]
    (ws : List ReporterWrite) (v : Viewer Trajectory Time) :
    (reporterWrites ws v).needsRerendering_ = v.needsRerendering_ := by
  induction ws generalizing v with
  | nil => rfl
  | cons w ws ih =>
    have hstep : reporterWrites (w :: ws) v = reporterWrites ws (w.apply v) := rfl
    rw [hstep, ih]
    cases w <;> rfl

/-- No write during the call: none at any place. -/
theorem Interleaving.all_eq_nil (i : Interleaving) (h : i.all = []) :
    i.beforeTime = [] ∧ i.withinTime = [] ∧ i.beforeCount = [] ∧
      i.withinCount = [] ∧ i.afterCount = [] := by
  unfold Interleaving.all at h
  simp only [List.append_eq_nil] at h
  obtain ⟨⟨⟨⟨h1, h2⟩, h3⟩, h4⟩, h5⟩ := h
  exact ⟨h1, h2, h3, h4, h5⟩

/-! ## Claims -/

/-- C1: when creating the `ClientSocket` or calling
`FAHClientIO::getTrajectories` raises a `SocketException`, and the demo-protein
file opens and parses, `getTrajectories` returns the one-element list holding
the trajectory parsed from that file, and no `SocketException` reaches the
caller. -/
theorem getTrajectories_socketException_fallback {Trajectory : Type}
    (c : Collaborators Trajectory) (proteinStr : String) (demo : Trajectory)
    (hraise :
      (∃ d, c.makeClientSocket c.getHost c.getPort = .error (.SocketException d)) ∨
      (∃ socket io d, c.makeClientSocket c.getHost c.getPort = .ok socket ∧
        c.makeClient socket = .ok io ∧
        c.clientGetTrajectories io = .error (.SocketException d)))
    (hopen : c.ifstream FILENAME = some (.ok proteinStr))
    (hparse : c.parse proteinStr false = .ok demo) :
    (getTrajectories c).1 = .ok [demo] ∧
      (∀ ts, (getTrajectories c).1 = .ok ts → ts.length = 1) ∧
      ∀ d, (getTrajectories c).1 ≠ .error (.SocketException d) := by
  have htry : ∃ d, (tryBlock c).1 = .error (.SocketException d) := by
    rcases hraise with ⟨d, h⟩ | ⟨socket, io, d, h1, h2, h3⟩
    · exact ⟨d, by simp [tryBlock, h]⟩
    · exact ⟨d, by simp [tryBlock, h1, h2, h3]⟩
  obtain ⟨d, hd⟩ := htry
  have hres : (getTrajectories c).1 = .ok [demo] := by
    simp [getTrajectories, tryCatch_of_socketException c d hd, demoProtein, hopen, hparse]
  refine ⟨hres, ?_, ?_⟩
  · intro ts hts
    rw [hres] at hts
    cases hts
    rfl
  · intro d' hd'
    rw [hres] at hd'
    cases hd'

/-- C1 at a concrete run: the connection is refused, the demo file holds
three bytes. -/
theorem getTrajectories_socketException_fallback_witness :
    (getTrajectories (refused (some "abc"))).1 = .ok [3] ∧
      (∀ ts, (getTrajectories (refused (some "abc"))).1 = .ok ts → ts.length = 1) ∧
      ∀ d, (getTrajectories (refused (some "abc"))).1 ≠ .error (.SocketException d) :=
  getTrajectories_socketException_fallback (refused (some "abc")) "abc" 3
    (Or.inl ⟨"connection refused", rfl⟩) (by decide) (by decide)

/-- C2: when the remote retrieval returns the empty list without raising, and
the demo-protein file opens and parses, the result is the one-element list
holding the trajectory parsed from that file. -/
theorem getTrajectories_empty_remote_fallback {Trajectory : Type}
    (c : Collaborators Trajectory) (socket : ClientSocket) (io : FAHClientIO)
    (proteinStr : String) (demo : Trajectory)
    (hsocket : c.makeClientSocket c.getHost c.getPort = .ok socket)
    (hio : c.makeClient socket = .ok io)
    (hremote : c.clientGetTrajectories io = .ok [])
    (hopen : c.ifstream FILENAME = some (.ok proteinStr))
    (hparse : c.parse proteinStr false = .ok demo) :
    (getTrajectories c).1 = .ok [demo] ∧
      (getTrajectories c).2 = [.cerr notEnoughSlots, .ifstreamOpen FILENAME] := by
  have hb := tryBlock_of_remote c socket io [] hsocket hio hremote
  have hc : tryCatch c = (.ok [], [.cerr notEnoughSlots]) := by
    simp [tryCatch, hb]
  simp [getTrajectories, hc, demoProtein, hopen, hparse]

/-- C2 at a concrete run: the client reports no slot, the demo file holds
three bytes. -/
theorem getTrajectories_empty_remote_fallback_witness :
    (getTrajectories (scripted (.ok []) (some "abc") parseNat)).1 = .ok [3] ∧
      (getTrajectories (scripted (.ok []) (some "abc") parseNat)).2 =
        [.cerr notEnoughSlots, .ifstreamOpen FILENAME] :=
  getTrajectories_empty_remote_fallback (scripted (.ok []) (some "abc") parseNat)
    ⟨"127.0.0.1", 36330⟩ ⟨⟨"127.0.0.1", 36330⟩⟩ "abc" 3 rfl rfl rfl (by decide) (by decide)

/-- C6: when the remote retrieval returns a non-empty list without raising,
`getTrajectories` returns exactly that list (same trajectories, same order,
same length), opens no file and writes nothing: the demo protein plays no part. -/
theorem getTrajectories_remote_nonempty {Trajectory : Type}
    (c : Collaborators Trajectory) (socket : ClientSocket) (io : FAHClientIO)
    (remote : List Trajectory)
    (hsocket : c.makeClientSocket c.getHost c.getPort = .ok socket)
    (hio : c.makeClient socket = .ok io)
    (hremote : c.clientGetTrajectories io = .ok remote)
    (hne : remote ≠ []) :
    getTrajectories c = (.ok remote, []) ∧
      Event.ifstreamOpen FILENAME ∉ (getTrajectories c).2 := by
  have hb := tryBlock_of_remote c socket io remote hsocket hio hremote
  have hemp : remote.isEmpty = false := by
    cases remote with
    | nil => exact absurd rfl hne
    | cons a l => rfl
  have hc : tryCatch c = (.ok remote, []) := by
    simp [tryCatch, hb, hemp]
  have hres : getTrajectories c = (.ok remote, []) := by
    simp [getTrajectories, hc, demoProtein, hemp]
  refine ⟨hres, ?_⟩
  rw [hres]
  simp

/-- C6 at a concrete run: the client reports two slots; the demo file is there
and would parse, yet is left alone. -/
theorem getTrajectories_remote_nonempty_witness :
    getTrajectories (scripted (.ok [10, 20]) (some "abc") parseNat) = (.ok [10, 20], []) ∧
      Event.ifstreamOpen FILENAME ∉
        (getTrajectories (scripted (.ok [10, 20]) (some "abc") parseNat)).2 :=
  getTrajectories_remote_nonempty (scripted (.ok [10, 20]) (some "abc") parseNat)
    ⟨"127.0.0.1", 36330⟩ ⟨⟨"127.0.0.1", 36330⟩⟩ [10, 20] rfl rfl rfl (by decide)

/-- C3, as stated, fails: a syntax error raised by the remote retrieval is not
a `SocketException`, the demo file is there and parses to trajectory `3`, yet
`getTrajectories` hands the syntax error to its caller, does not return the
demo trajectory and never opens the file. -/
theorem getTrajectories_syntaxError_escapes :
    (tryBlock malformed).1 = .error (.other "SyntaxError" "expected a value at offset 22") ∧
      (Thrown.other "SyntaxError" "expected a value at offset 22").isSocketException = false ∧
      malformed.ifstream FILENAME = some (.ok "abc") ∧
      malformed.parse "abc" false = .ok 3 ∧
      getTrajectories malformed =
        (.error (.other "SyntaxError" "expected a value at offset 22"), []) ∧
      (getTrajectories malformed).1 ≠ .ok [3] := by
  decide

/-- C3, amended: an error raised during the remote retrieval that is not a
`SocketException` is propagated to the caller of `getTrajectories` unchanged;
the fallback is not entered (the demo-protein file is not opened and nothing
is written to `std::cerr`). -/
theorem getTrajectories_propagates_other {Trajectory : Type}
    (c : Collaborators Trajectory) (e : Thrown)
    (hraised : (tryBlock c).1 = .error e)
    (hother : e.isSocketException = false) :
    getTrajectories c = (.error e, []) ∧
      Event.ifstreamOpen FILENAME ∉ (getTrajectories c).2 := by
  have hc := tryCatch_of_other c e hother hraised
  have hres : getTrajectories c = (.error e, []) := by
    rw [getTrajectories_of_tryCatch_error c e (by rw [hc]), hc]
  refine ⟨hres, ?_⟩
  rw [hres]
  simp

/-- C3, amended, at the run with the malformed payload. -/
theorem getTrajectories_propagates_other_witness :
    getTrajectories malformed =
        (.error (.other "SyntaxError" "expected a value at offset 22"), []) ∧
      Event.ifstreamOpen FILENAME ∉ (getTrajectories malformed).2 :=
  getTrajectories_propagates_other malformed
    (.other "SyntaxError" "expected a value at offset 22") (by decide) rfl

/-- C4, as stated, fails. Two runs enter the fallback path (the connection is
refused, line 151 sees the empty vector) and both find the demo protein
unusable, yet they fail with different errors: a missing file gives
`std::runtime_error("Unable to demo protein!")`, a file the parser rejects
gives the error of the parser as it is. A third run fails although the demo
protein is there and parses: the error of the remote retrieval reaches the
caller, so a fatal data-unavailable error is not the only one propagated. -/
theorem getTrajectories_fallback_errors_differ :
    ((tryCatch (refused none)).1 = .ok [] ∧
      (refused none).ifstream FILENAME = none ∧
      (getTrajectories (refused none)).1 =
        .error (.runtime_error "Unable to demo protein!")) ∧
    ((tryCatch (refused (some ""))).1 = .ok [] ∧
      (refused (some "")).ifstream FILENAME = some (.ok "") ∧
      (refused (some "")).parse "" false =
        .error (.other "ParseError" "unexpected end of input") ∧
      (getTrajectories (refused (some ""))).1 =
        .error (.other "ParseError" "unexpected end of input")) ∧
    (getTrajectories (refused none)).1 ≠ (getTrajectories (refused (some ""))).1 ∧
    (malformed.ifstream FILENAME = some (.ok "abc") ∧
      malformed.parse "abc" false = .ok 3 ∧
      (getTrajectories malformed).1 =
        .error (.other "SyntaxError" "expected a value at offset 22")) := by
  decide

/-- C4, amended: `getTrajectories` fails with error `e` exactly when one of
three things happens: (1) the remote retrieval raised `e` and `e` is not a
`SocketException`; (2) the fallback path was entered, the demo-protein file
could not be opened, and `e` is `std::runtime_error("Unable to demo protein!")`;
(3) the fallback path was entered, the file opened, and reading it or parsing
what was read raised `e`. -/
theorem getTrajectories_error_iff {Trajectory : Type}
    (c : Collaborators Trajectory) (e : Thrown) :
    (getTrajectories c).1 = .error e ↔
      ((tryBlock c).1 = .error e ∧ e.isSocketException = false) ∨
      ((tryCatch c).1 = .ok [] ∧ c.ifstream FILENAME = none ∧
        e = .runtime_error "Unable to demo protein!") ∨
      ((tryCatch c).1 = .ok [] ∧
        (c.ifstream FILENAME = some (.error e) ∨
          ∃ proteinStr, c.ifstream FILENAME = some (.ok proteinStr) ∧
            c.parse proteinStr false = .error e)) := by
  constructor
  · intro h
    cases hc : (tryCatch c).1 with
    | error e' =>
      rw [getTrajectories_of_tryCatch_error c e' hc] at h
      simp at h
      subst h
      exact Or.inl (tryCatch_error c e' hc)
    | ok ts0 =>
      rw [getTrajectories_of_tryCatch_ok c ts0 hc] at h
      unfold demoProtein at h
      split at h
      · next hemp =>
        have hnil : ts0 = [] := by simpa using hemp
        subst hnil
        split at h
        · next hopen =>
          simp [unableToDemo] at h
          exact Or.inr (Or.inl ⟨rfl, hopen, h.symm⟩)
        · next e' hopen =>
          simp at h
          subst h
          exact Or.inr (Or.inr ⟨rfl, Or.inl hopen⟩)
        · next proteinStr hopen =>
          split at h
          · next e' hparse =>
            simp at h
            subst h
            exact Or.inr (Or.inr ⟨rfl, Or.inr ⟨proteinStr, hopen, hparse⟩⟩)
          · simp at h
      · simp at h
  · rintro (⟨hraised, hother⟩ | ⟨hfall, hopen, he⟩ | ⟨hfall, hread | ⟨proteinStr, hopen, hparse⟩⟩)
    · have hc := tryCatch_of_other c e hother hraised
      rw [getTrajectories_of_tryCatch_error c e (by rw [hc])]
    · rw [getTrajectories_of_tryCatch_ok c [] hfall]
      simp [demoProtein, hopen, he, unableToDemo]
    · rw [getTrajectories_of_tryCatch_ok c [] hfall]
      simp [demoProtein, hread]
    · rw [getTrajectories_of_tryCatch_ok c [] hfall]
      simp [demoProtein, hopen, hparse]

/-- C4, amended, at the run whose connection is refused and whose demo file
is empty: the error of the parser is what the caller gets. -/
theorem getTrajectories_error_iff_witness :
    (getTrajectories (refused (some ""))).1 =
      .error (.other "ParseError" "unexpected end of input") :=
  (getTrajectories_error_iff (refused (some ""))
    (.other "ParseError" "unexpected end of input")).mpr
    (Or.inr (Or.inr ⟨by decide, Or.inr ⟨"", by decide, by decide⟩⟩))

/-- C9: whenever `getTrajectories` returns normally the vector is non-empty,
so `trajectories[0]` in `addSlotViewers` is in bounds: that access finds an
element, and `addSlotViewers` never ends in an out-of-bounds access. -/
theorem getTrajectories_returns_nonempty {Trajectory : Type}
    (c : Collaborators Trajectory) (ts : List Trajectory)
    (h : (getTrajectories c).1 = .ok ts) :
    ts ≠ [] ∧ 0 < ts.length ∧ (∃ t, ts[0]? = some t) ∧
      ∀ (Time : Type) (v : Viewer Trajectory Time),
        (addSlotViewers c v).1 ≠ .outOfBounds := by
  have hne := getTrajectories_ok_ne_nil c ts h
  refine ⟨hne, List.length_pos.mpr hne, ?_, ?_⟩
  · cases ts with
    | nil => exact absurd rfl hne
    | cons t rest => exact ⟨t, by simp⟩
  · intro Time v
    unfold addSlotViewers
    split
    · simp
    · next ts' log hres =>
      have hne' := getTrajectories_ok_ne_nil c ts' (by rw [hres])
      cases ts' with
      | nil => exact absurd rfl hne'
      | cons t rest => simp

/-- C9 at a concrete run: the connection is refused and the demo protein
supplies the one element. -/
theorem getTrajectories_returns_nonempty_witness :
    [3] ≠ [] ∧ 0 < [3].length ∧ (∃ t, [3][0]? = some t) ∧
      ∀ (Time : Type) (v : Viewer Nat Time),
        (addSlotViewers (refused (some "abc")) v).1 ≠ .outOfBounds :=
  getTrajectories_returns_nonempty (refused (some "abc")) [3] (by decide)

/-- C5: for every non-empty vector `t0 :: rest` that `getTrajectories`
returns, whatever its length, `addSlotViewers` returns having appended exactly
one `SlotViewer` to `slotViewers_`, built from `t0` (index 0) and `scene_`;
the outcome is the same for every other run whose vector starts with `t0`, so
the entries at index 1 and beyond are not consumed. -/
theorem addSlotViewers_first_only {Trajectory Time : Type}
    (c : Collaborators Trajectory) (v : Viewer Trajectory Time)
    (t0 : Trajectory) (rest : List Trajectory)
    (h : (getTrajectories c).1 = .ok (t0 :: rest)) :
    (∃ v', (addSlotViewers c v).1 = .returned v' ∧
      v'.slotViewers_ = v.slotViewers_ ++ [⟨t0, v.scene_⟩] ∧
      v'.slotViewers_.length = v.slotViewers_.length + 1) ∧
    ∀ (c' : Collaborators Trajectory) (rest' : List Trajectory),
      (getTrajectories c').1 = .ok (t0 :: rest') →
        (addSlotViewers c' v).1 = (addSlotViewers c v).1 := by
  have key : ∀ (c1 : Collaborators Trajectory) (r1 : List Trajectory),
      (getTrajectories c1).1 = .ok (t0 :: r1) →
        (addSlotViewers c1 v).1 =
          .returned { v with slotViewers_ := v.slotViewers_ ++ [⟨t0, v.scene_⟩] } := by
    intro c1 r1 h1
    unfold addSlotViewers
    split
    · next e log hres => rw [hres] at h1; simp at h1
    · next ts log hres =>
      rw [hres] at h1
      simp at h1
      subst h1
      simp
  refine ⟨⟨_, key c rest h, rfl, by simp⟩, ?_⟩
  intro c' rest' h'
  rw [key c rest h, key c' rest' h']

/-- C5 at a concrete run: the client reports three slots; the fresh viewer
gets one slot viewer, for trajectory `10`. -/
theorem addSlotViewers_first_only_witness :
    (∃ v', (addSlotViewers (scripted (.ok [10, 20, 30]) none parseNat)
        (freshViewer 5 false)).1 = .returned v' ∧
      v'.slotViewers_ = (freshViewer 5 false).slotViewers_ ++ [⟨10, (freshViewer 5 false).scene_⟩] ∧
      v'.slotViewers_.length = (freshViewer 5 false).slotViewers_.length + 1) ∧
    ∀ (c' : Collaborators Nat) (rest' : List Nat),
      (getTrajectories c').1 = .ok (10 :: rest') →
        (addSlotViewers c' (freshViewer 5 false)).1 =
          (addSlotViewers (scripted (.ok [10, 20, 30]) none parseNat) (freshViewer 5 false)).1 :=
  addSlotViewers_first_only (scripted (.ok [10, 20, 30]) none parseNat)
    (freshViewer 5 false) 10 [20, 30] (by decide)

/-- C7: the skybox faces inward. The vertex table has 24 entries and the index
table 36, that is 12 triangles; for each triangle `(a, b, c)` read in order the
three indices are below 24, and the counter-clockwise normal
`(VERTICES[b] - VERTICES[a]) x (VERTICES[c] - VERTICES[a])` has a strictly
negative dot product with `VERTICES[a] + VERTICES[b] + VERTICES[c]`. -/
theorem skybox_faces_inward :
    VERTICES.length = 24 ∧ INDICES.length = 36 ∧
      ∀ k : Fin 12,
        (triangle k).1 < 24 ∧ (triangle k).2.1 < 24 ∧ (triangle k).2.2 < 24 ∧
          (ccwNormal (triangle k)).dot (vertexSum (triangle k)) < 0 := by
  decide

/-- C8, as stated, fails on the counters. (1) A redraw is pending and
`frameCount_` holds the greatest value of its type, 2147483647: after
`render` it holds -2147483648, not one more. (2) A redraw is pending, 7
frames are counted and 40 ms spent, and the reporter's turn (lines 78-79)
comes after `render` is entered: on return `frameCount_` is 1, not 8, and
`timeSpentRendering_` is 5, not 45. (3) Nothing is pending and the user is at
rest, and the reporter's turn comes during the call: on return `frameCount_`
is 0, not the 7 it was. -/
theorem render_counters_not_as_claimed :
    (atGreatest.needsRerendering_ = true ∧
      atGreatest.frameCount_ = 2147483647 ∧
      (render .quiet atGreatest).1.frameCount_ =
        -2147483648 ∧
      (render .quiet atGreatest).1.frameCount_ ≠
        atGreatest.frameCount_ + 1) ∧
    ((midSecond true).needsRerendering_ = true ∧
      (render reporterFirst (midSecond true)).1.frameCount_ = 1 ∧
      (render reporterFirst (midSecond true)).1.frameCount_ ≠
        (midSecond true).frameCount_ + 1 ∧
      (render reporterFirst (midSecond true)).1.timeSpentRendering_ = 5 ∧
      (render reporterFirst (midSecond true)).1.timeSpentRendering_ ≠
        (midSecond true).timeSpentRendering_ + 5) ∧
    ((midSecond false).needsRerendering_ = false ∧
      (midSecond false).user_.isMoving = false ∧
      (render reporterFirst (midSecond false)).1.frameCount_ = 0 ∧
      (render reporterFirst (midSecond false)).1.frameCount_ ≠
        (midSecond false).frameCount_) := by
  decide

/-- C8, amended: `render` draws a frame if and only if `needsRerendering_` is
true or the user is moving, and `needsRerendering_` is false when `render`
returns, whatever the reporter thread writes meanwhile. In a call during
which the reporter thread writes nothing: when both are false the viewer is
unchanged and nothing is called; otherwise `timeSpentRendering_` grows by what
`scene_->render()` returns, the scene is rendered once between `glClear` and
`glutSwapBuffers`, and `frameCount_` grows by exactly 1 provided it is below
the greatest value of its type. -/
theorem render_iff_needed {Trajectory Time : Type} [Add Time] [Zero Time]
    (i : Interleaving) (v : Viewer Trajectory Time) :
    (GLCall.sceneRender ∈ (render i v).2 ↔
      (v.needsRerendering_ = true ∨ v.user_.isMoving = true)) ∧
    (render i v).1.needsRerendering_ = false ∧
    (i.all = [] →
      (v.needsRerendering_ = false ∧ v.user_.isMoving = false → render i v = (v, [])) ∧
      (v.needsRerendering_ = true ∨ v.user_.isMoving = true →
        (render i v).1.timeSpentRendering_ = v.timeSpentRendering_ + v.scene_.render ∧
        (render i v).2 = [.glClear, .sceneRender, .glutSwapBuffers] ∧
        (v.frameCount_ < v.countType.max →
          (render i v).1.frameCount_ = v.frameCount_ + 1))) := by
  refine ⟨?_, ?_, ?_⟩
  · cases hn : v.needsRerendering_ <;> cases hm : v.user_.isMoving <;>
      simp [render, hn, hm]
  · cases hn : v.needsRerendering_ <;> cases hm : v.user_.isMoving <;>
      simp [render, hn, hm, reporterWrites_needsRerendering]
  · intro hquiet
    obtain ⟨h1, h2, h3, h4, h5⟩ := Interleaving.all_eq_nil i hquiet
    have hlo := v.frameCount_inRange.1
    refine ⟨?_, ?_⟩
    · rintro ⟨hn, hm⟩
      simp [render, hn, hm, hquiet, reporterWrites]
    · intro hdraw
      have hcond : (!v.needsRerendering_ && !v.user_.isMoving) = false := by
        rcases hdraw with h | h <;> simp [h]
      refine ⟨?_, ?_, ?_⟩
      · simp [render, hcond, h1, h2, h3, h4, h5, reporterWrites]
      · simp [render, hcond]
      · intro hbelow
        simp [render, hcond, h1, h2, h3, h4, h5, reporterWrites, CountType.increment,
          hlo, hbelow]

/-- C8, amended, at a concrete state: a fresh viewer (redraw pending, user at
rest, no frame counted yet) whose scene takes 5 ms to draw, with the reporter
silent during the call, ends with 5 ms spent and one frame counted. -/
theorem render_iff_needed_witness :
    (render .quiet (freshViewer 5 false)).1.timeSpentRendering_ = 5 ∧
      (render .quiet (freshViewer 5 false)).2 = [.glClear, .sceneRender, .glutSwapBuffers] ∧
      (render .quiet (freshViewer 5 false)).1.frameCount_ = 1 :=
  have h := ((render_iff_needed .quiet (freshViewer 5 false)).2.2 rfl).2 (Or.inl rfl)
  ⟨h.1, h.2.1, h.2.2 (by decide)⟩

end FoldingAtomata
